import Mathlib

/-!
Shallow embedding of `napari/viewer.py` (the `Viewer` class: construction,
`update_console`, `screenshot`, `update`, `show`, `close`) together with the
external collaborators the claims need.  Definitions are translated from the
source; collaborators that live in this repository but outside the excerpt
(the Qt console's `push`, the window/canvas `screenshot` implementations,
the `Window` constructor's show-on-construct behaviour, the thread pool's
`start`) are modelled from the spec and marked as such.
-/

namespace Napari

/-- The class attribute `Viewer._napari_app_id`: by default the namespaced
per-version string, and per the source comment it may be set to `False`
(the disabled sentinel) to avoid overwriting the dock icon grouping. -/
inductive AppId where
  | disabled : AppId
  | str : String → AppId
deriving DecidableEq

/-- Python truthiness of `self._napari_app_id`: `False` is falsy, a string is
truthy iff nonempty. -/
def AppId.truthy : AppId → Bool
  | .disabled => false
  | .str s => !(s = "")

/-- The string passed to the OS shell call (only read when truthy). -/
def AppId.identityString : AppId → String
  | .disabled => ""
  | .str s => s

/-- The default `_napari_app_id`: `'napari.napari.viewer.' + str(__version__)`. -/
def napariAppIdDefault (version : String) : String :=
  "napari.napari.viewer." ++ version

/-- Process-wide environment read by `Viewer.__init__`:
`QApplication.instance()` presence, `platform.system()`,
`getattr(sys, 'frozen', False)`, the HRESULT returned by the
`SetCurrentProcessExplicitAppUserModelID` shell call (ctypes returns it as a
plain integer without raising, and the source discards it), and the directory
of the module (`dirname(__file__)`). -/
structure Config where
  appInstance : Bool
  platformSystem : String
  sysFrozen : Bool
  shellResult : Int
  moduleDir : String
deriving DecidableEq

/-- The `RuntimeError` message raised when `QApplication.instance()` is
`None`, built exactly as the adjacent string literals of the source
concatenate.  The four remediation items are named so that their occurrence
in the message is visible in the definition. -/
def wayGuiQtContext : String :=
  "use the `napari.gui_qt()` context manager. See " ++
  "https://github.com/napari/napari/tree/master/examples for usage examples."

/-- Remediation item: the interactive-shell magic command. -/
def wayGuiMagic : String :=
  "In IPython or a local Jupyter instance, use the `%gui qt` magic command."

/-- Remediation item: the interactive-shell launch flag. -/
def wayGuiFlag : String :=
  "Launch IPython with the option `--gui=qt`."

/-- Remediation item: the persisted interactive-shell configuration. -/
def wayGuiConfig : String :=
  "(recommended) in your IPython configuration file, add" ++
  " or uncomment the line `c.TerminalIPythonApp.gui = \x27qt\x27`." ++
  " Then, restart IPython."

/-- The full message of the `RuntimeError`. -/
def napariLoopMessage : String :=
  "napari requires a Qt event loop to run. To create one, " ++
  "try one of the following: \n" ++
  "  - " ++ wayGuiQtContext ++ "\n" ++
  "  - " ++ wayGuiMagic ++ "\n" ++
  "  - " ++ wayGuiFlag ++ "\n" ++
  "  - " ++ wayGuiConfig

/-- Occurrence of a substring, stated as an explicit decomposition. -/
def containsSub (msg sub : String) : Prop :=
  ∃ pre post : String, msg = pre ++ (sub ++ post)

/-- The short-circuit condition guarding the shell registration call:
`platform.system() == "Windows" and not getattr(sys, 'frozen', False) and
self._napari_app_id`. -/
def registrationRuns (cfg : Config) (appId : AppId) : Bool :=
  (cfg.platformSystem = "Windows") && !cfg.sysFrozen && appId.truthy

/-- The three reads performed by the registration condition. -/
inductive CondCheck where
  | platformCheck : CondCheck
  | frozenCheck : CondCheck
  | identityCheck : CondCheck
deriving DecidableEq

/-- The checks the source's `and`-chain evaluates, in order, under Python
short-circuit semantics: `platform.system() == "Windows"` is evaluated
first, `getattr(sys, 'frozen', False)` only if the first was true, and the
truthiness of `self._napari_app_id` only if both were. -/
def condEvalTrace (cfg : Config) (_appId : AppId) : List CondCheck :=
  if cfg.platformSystem = "Windows" then
    if cfg.sysFrozen then
      [CondCheck.platformCheck, CondCheck.frozenCheck]
    else
      [CondCheck.platformCheck, CondCheck.frozenCheck, CondCheck.identityCheck]
  else
    [CondCheck.platformCheck]

/-- The evaluation order the spec asserts for the same conditions (refinement
comparison only; follows the spec's words): the disabled-sentinel check
first, then the frozen check, then the platform check. -/
def specOrderCondTrace (cfg : Config) (appId : AppId) : List CondCheck :=
  if appId.truthy then
    if cfg.sysFrozen then
      [CondCheck.identityCheck, CondCheck.frozenCheck]
    else
      [CondCheck.identityCheck, CondCheck.frozenCheck, CondCheck.platformCheck]
  else
    [CondCheck.identityCheck]

/-- The icon path `join(dirname(__file__), 'resources', 'logo.png')`. -/
def logopath (moduleDir : String) : String :=
  moduleDir ++ "/resources/logo.png"

/-- Side effects performed by `Viewer.__init__`, in program order.  The
shell call records the identity string passed and the HRESULT the call
returned (which the source discards). -/
inductive Effect where
  | setAppUserModelID : String → Int → Effect
  | setWindowIcon : String → Effect
  | constructViewerModel :
      String → Nat → Option (List Int) → Option (List String) → Effect
  | constructQtViewer : Effect
  | constructWindow : Bool → Effect
deriving DecidableEq

/-- Modelled from the spec: the console's namespace, a mapping from variable
name to value mutated only via merge.  Represented as an association list in
which the most recently merged binding shadows earlier ones (lookup takes
the first hit). -/
structure Console (V : Type) where
  namespaceMap : List (String × V)

/-- Splitting a list of characters on spaces, dropping empty chunks (the
accumulator holds the current chunk reversed). -/
def splitCharsAux : List Char → List Char → List (List Char)
  | [], acc => if acc.isEmpty then [] else [acc.reverse]
  | c :: rest, acc =>
      if c = ' ' then
        if acc.isEmpty then splitCharsAux rest []
        else acc.reverse :: splitCharsAux rest []
      else splitCharsAux rest (c :: acc)

/-- Splitting a space-delimited string of variable names (Python
`str.split()` on spaces, empty chunks dropped). -/
def splitNames (s : String) : List String :=
  (splitCharsAux s.toList []).map (fun cs => String.mk cs)

/-- The `variables` argument of `update_console`: a dict, a space-delimited
string of names, or a list/tuple of names. -/
inductive Variables (V : Type) where
  | mapping : List (String × V) → Variables V
  | nameStr : String → Variables V
  | nameList : List String → Variables V

/-- Resolving a list of names against the caller's frame; per the spec the
behaviour on an unresolvable name is implementation-defined, modelled here
as injecting the resolvable subset. -/
def resolveNames (callerFrame : String → Option V) (names : List String) :
    List (String × V) :=
  names.filterMap (fun n => (callerFrame n).map (fun v => (n, v)))

/-- Merging bindings into the namespace, later keys overwriting earlier
ones: each processed binding is placed in front of the existing ones. -/
def mergeAll (ns : List (String × V)) (bs : List (String × V)) :
    List (String × V) :=
  bs.foldl (fun acc p => p :: acc) ns

/-- Modelled from the spec: the console's `push` operation (the console
implementation is not part of this excerpt).  A dict is merged directly; a
string is split on spaces into names; names are resolved from the caller's
calling context and the resolved bindings merged. -/
def Console.push (c : Console V) (callerFrame : String → Option V)
    (vars : Variables V) : Console V :=
  match vars with
  | .mapping m => ⟨mergeAll c.namespaceMap m⟩
  | .nameStr s => ⟨mergeAll c.namespaceMap (resolveNames callerFrame (splitNames s))⟩
  | .nameList l => ⟨mergeAll c.namespaceMap (resolveNames callerFrame l)⟩

/-- The names `push` resolves from the caller, when `variables` is given as
name(s) only. -/
def namesOf : Variables V → Option (List String)
  | .mapping _ => none
  | .nameStr s => some (splitNames s)
  | .nameList l => some l

/-- Modelled from the spec: a captured screen region (window chrome or
canvas), with its height, width and pixel content; `pix r c ch` is channel
`ch` of the pixel at row `r`, column `c`, row 0 being the top. -/
structure Capture where
  h : Nat
  w : Nat
  pix : Nat → Nat → Nat → Nat

/-- Modelled from the spec: rendering a capture into the returned pixel
buffer — a dense `(height, width, 4)` array of 8-bit channel values with
index `[0, 0]` the upper-left corner of the captured region. -/
def renderCapture (c : Capture) : List (List (List Nat)) :=
  (List.range c.h).map (fun r =>
    (List.range c.w).map (fun col =>
      (List.range 4).map (fun ch => c.pix r col ch % 256)))

/-- The `QtUpdateUI` background task record: the callable plus its
positional and keyword arguments (`QtUpdateUI(func, *args, **kwargs)`). -/
structure QtUpdateUI (V : Type) where
  func : V
  args : List V
  kwargs : List (String × V)
deriving DecidableEq

/-- Whether an effect is the OS shell registration call. -/
def Effect.isShellCall : Effect → Bool
  | .setAppUserModelID _ _ => true
  | _ => false

/-- The state of the `QtViewer` owned by the window: the optional attached
console, the thread pool (its object identity as a number, plus the queue of
task records started on it; `pool.start` enqueues — modelled from the spec,
the pool implementation is not part of this excerpt), and the canvas
capture source. -/
structure QtViewerState (V : Type) where
  console : Option (Console V)
  poolId : Nat
  poolQueue : List (QtUpdateUI V)
  canvas : Capture

/-- The state of the `Window`: its `QtViewer`, the whole-window chrome
capture source, and visibility. -/
structure WindowState (V : Type) where
  qt_viewer : QtViewerState V
  chrome : Capture
  visible : Bool

/-- The constructed `Viewer`: the `ViewerModel` fields the constructor
forwards (`title`, `ndisplay`, `order`, `axis_labels`; the model itself is
external to this excerpt) plus the owned window. -/
structure Viewer (V : Type) where
  title : String
  ndisplay : Nat
  order : Option (List Int)
  axisLabels : Option (List String)
  window : WindowState V

/-- The external resources handed to construction: the console the
`QtViewer` may attach, the pool object, and the two capture sources. -/
structure WindowEnv (V : Type) where
  console : Option (Console V)
  poolId : Nat
  canvas : Capture
  chrome : Capture

/-- `Viewer.__init__`: checks `QApplication.instance()` and raises
`RuntimeError(napariLoopMessage)` if it is `None`; otherwise conditionally
performs the shell registration call (discarding its HRESULT), sets the
window icon, constructs the `ViewerModel` via `super().__init__`, constructs
the `QtViewer`, and constructs the `Window` with `show=show`.  Returns the
side effects in program order together with the result; on the error path no
effect has happened.  That the `Window` is shown during construction iff
`show` is true is modelled from the spec (the `Window` class is not part of
this excerpt). -/
def viewerInit (cfg : Config) (appId : AppId) (env : WindowEnv V)
    (title : String) (ndisplay : Nat) (order : Option (List Int))
    (axisLabels : Option (List String)) (showFlag : Bool) :
    List Effect × Except String (Viewer V) :=
  if !cfg.appInstance then
    ([], Except.error napariLoopMessage)
  else
    let regEffects :=
      if registrationRuns cfg appId then
        [Effect.setAppUserModelID appId.identityString cfg.shellResult]
      else []
    (regEffects ++
      [Effect.setWindowIcon (logopath cfg.moduleDir),
       Effect.constructViewerModel title ndisplay order axisLabels,
       Effect.constructQtViewer,
       Effect.constructWindow showFlag],
     Except.ok
      { title := title
        ndisplay := ndisplay
        order := order
        axisLabels := axisLabels
        window :=
          { qt_viewer :=
              { console := env.console
                poolId := env.poolId
                poolQueue := []
                canvas := env.canvas }
            chrome := env.chrome
            visible := showFlag } })

/-- `Viewer.update_console`: returns unchanged if
`self.window.qt_viewer.console is None`, otherwise calls
`console.push(variables)` (the caller's frame is threaded through to the
modelled `push`). -/
def Viewer.update_console (s : Viewer V) (callerFrame : String → Option V)
    (vars : Variables V) : Viewer V :=
  match s.window.qt_viewer.console with
  | none => s
  | some c =>
      { s with window.qt_viewer.console := some (c.push callerFrame vars) }

/-- `Viewer.screenshot`: `self.window.screenshot()` when `with_viewer` is
true, else `self.window.qt_viewer.screenshot()`; the two screenshot
implementations are modelled from the spec as rendering the chrome and
canvas capture sources respectively. -/
def Viewer.screenshot (s : Viewer V) (with_viewer : Bool) :
    List (List (List Nat)) :=
  if with_viewer then renderCapture s.window.chrome
  else renderCapture s.window.qt_viewer.canvas

/-- `Viewer.update`: builds `QtUpdateUI(func, *args, **kwargs)`, starts it
on `self.window.qt_viewer.pool` (enqueue, modelled from the spec), and
returns `self.window.qt_viewer.pool` itself. -/
def Viewer.update (s : Viewer V) (func : V) (args : List V)
    (kwargs : List (String × V)) : Viewer V × Nat :=
  let t : QtUpdateUI V := { func := func, args := args, kwargs := kwargs }
  ({ s with window.qt_viewer.poolQueue := s.window.qt_viewer.poolQueue ++ [t] },
   s.window.qt_viewer.poolId)

/-- A concrete capture source used by witnesses. -/
def demoCapture : Capture :=
  { h := 2, w := 3, pix := fun r c ch => r + c + ch }

/-- A concrete environment used by witnesses. -/
def demoEnv : WindowEnv Nat :=
  { console := none, poolId := 5, canvas := demoCapture, chrome := demoCapture }

/-- A concrete configuration with a running event loop, on Windows, not
frozen. -/
def cfgWindows : Config :=
  { appInstance := true, platformSystem := "Windows", sysFrozen := false,
    shellResult := 0, moduleDir := "napari" }

/-- A concrete configuration with no running event loop. -/
def cfgNoLoop : Config :=
  { appInstance := false, platformSystem := "Windows", sysFrozen := false,
    shellResult := 0, moduleDir := "napari" }

/-- A concrete configuration with a running event loop on a non-Windows
platform. -/
def cfgLinux : Config :=
  { appInstance := true, platformSystem := "Linux", sysFrozen := false,
    shellResult := 0, moduleDir := "napari" }

/-- Helper: the value of `viewerInit` when the event loop is running. -/
theorem viewerInit_ok (cfg : Config) (appId : AppId) (env : WindowEnv V)
    (title : String) (ndisplay : Nat) (order : Option (List Int))
    (axisLabels : Option (List String)) (showFlag : Bool)
    (h : cfg.appInstance = true) :
    viewerInit cfg appId env title ndisplay order axisLabels showFlag
      = ((if registrationRuns cfg appId
          then [Effect.setAppUserModelID appId.identityString cfg.shellResult]
          else []) ++
         [Effect.setWindowIcon (logopath cfg.moduleDir),
          Effect.constructViewerModel title ndisplay order axisLabels,
          Effect.constructQtViewer,
          Effect.constructWindow showFlag],
        Except.ok
          { title := title
            ndisplay := ndisplay
            order := order
            axisLabels := axisLabels
            window :=
              { qt_viewer :=
                  { console := env.console
                    poolId := env.poolId
                    poolQueue := []
                    canvas := env.canvas }
                chrome := env.chrome
                visible := showFlag } }) := by
  simp [viewerInit, h]

/-- A concrete viewer with no attached console, used by witnesses. -/
def demoViewerNone : Viewer Nat :=
  { title := "napari", ndisplay := 2, order := none, axisLabels := none,
    window :=
      { qt_viewer :=
          { console := none, poolId := 5, poolQueue := [],
            canvas := demoCapture },
        chrome := demoCapture, visible := true } }

/-- A concrete viewer with an attached empty console, used by witnesses. -/
def demoViewerConsole : Viewer Nat :=
  { title := "napari", ndisplay := 2, order := none, axisLabels := none,
    window :=
      { qt_viewer :=
          { console := some ⟨[]⟩, poolId := 5, poolQueue := [],
            canvas := demoCapture },
        chrome := demoCapture, visible := true } }

/-- C1: if no process-wide event loop instance is running
(`QApplication.instance()` is `None`), construction fails with the
precondition error carrying the message that enumerates the four supported
ways to start a loop, and the effect trace is empty: no shell registration,
icon, ViewerModel, QtViewer or Window construction has happened. -/
theorem no_event_loop_fails_without_side_effects
    (cfg : Config) (appId : AppId) (env : WindowEnv V)
    (title : String) (ndisplay : Nat) (order : Option (List Int))
    (axisLabels : Option (List String)) (showFlag : Bool)
    (h : cfg.appInstance = false) :
    viewerInit cfg appId env title ndisplay order axisLabels showFlag
        = ([], Except.error napariLoopMessage)
      ∧ containsSub napariLoopMessage wayGuiQtContext
      ∧ containsSub napariLoopMessage wayGuiMagic
      ∧ containsSub napariLoopMessage wayGuiFlag
      ∧ containsSub napariLoopMessage wayGuiConfig := by
  refine ⟨by simp [viewerInit, h], ?_, ?_, ?_, ?_⟩
  · exact ⟨"napari requires a Qt event loop to run. To create one, " ++
      "try one of the following: \n" ++ "  - ",
      "\n" ++ "  - " ++ wayGuiMagic ++ "\n" ++ "  - " ++ wayGuiFlag ++
      "\n" ++ "  - " ++ wayGuiConfig,
      by simp [napariLoopMessage, String.append_assoc]⟩
  · exact ⟨"napari requires a Qt event loop to run. To create one, " ++
      "try one of the following: \n" ++ "  - " ++ wayGuiQtContext ++
      "\n" ++ "  - ",
      "\n" ++ "  - " ++ wayGuiFlag ++ "\n" ++ "  - " ++ wayGuiConfig,
      by simp [napariLoopMessage, String.append_assoc]⟩
  · exact ⟨"napari requires a Qt event loop to run. To create one, " ++
      "try one of the following: \n" ++ "  - " ++ wayGuiQtContext ++
      "\n" ++ "  - " ++ wayGuiMagic ++ "\n" ++ "  - ",
      "\n" ++ "  - " ++ wayGuiConfig,
      by simp [napariLoopMessage, String.append_assoc]⟩
  · exact ⟨"napari requires a Qt event loop to run. To create one, " ++
      "try one of the following: \n" ++ "  - " ++ wayGuiQtContext ++
      "\n" ++ "  - " ++ wayGuiMagic ++ "\n" ++ "  - " ++ wayGuiFlag ++
      "\n" ++ "  - ", "",
      by simp [napariLoopMessage, String.append_assoc]⟩

/-- Witness for C1 at a concrete configuration without a loop. -/
theorem no_event_loop_fails_without_side_effects_witness :
    viewerInit cfgNoLoop (AppId.str (napariAppIdDefault "0.1.0")) demoEnv
        "napari" 2 none none true
        = ([], Except.error napariLoopMessage)
      ∧ containsSub napariLoopMessage wayGuiQtContext
      ∧ containsSub napariLoopMessage wayGuiMagic
      ∧ containsSub napariLoopMessage wayGuiFlag
      ∧ containsSub napariLoopMessage wayGuiConfig :=
  no_event_loop_fails_without_side_effects cfgNoLoop
    (AppId.str (napariAppIdDefault "0.1.0")) demoEnv
    "napari" 2 none none true rfl

/-- C3: the OS shell registration call's failure is not fatal.  The call
returns an HRESULT which the source discards, so for any returned value
`r` — success or failure — construction completes: the result is `ok`, it is
the same viewer as for any other returned value, and the window is still
constructed. -/
theorem registration_failure_not_fatal
    (cfg : Config) (appId : AppId) (env : WindowEnv V)
    (title : String) (ndisplay : Nat) (order : Option (List Int))
    (axisLabels : Option (List String)) (showFlag : Bool) (r : Int)
    (h : cfg.appInstance = true) :
    ((viewerInit { cfg with shellResult := r } appId env
          title ndisplay order axisLabels showFlag).2
        = (viewerInit cfg appId env title ndisplay order axisLabels showFlag).2)
      ∧ (∃ v, (viewerInit { cfg with shellResult := r } appId env
          title ndisplay order axisLabels showFlag).2 = Except.ok v)
      ∧ Effect.constructWindow showFlag ∈
          (viewerInit { cfg with shellResult := r } appId env
            title ndisplay order axisLabels showFlag).1 := by
  have h' : ({ cfg with shellResult := r } : Config).appInstance = true := h
  rw [viewerInit_ok _ _ _ _ _ _ _ _ h', viewerInit_ok _ _ _ _ _ _ _ _ h]
  refine ⟨rfl, ⟨_, rfl⟩, ?_⟩
  simp

/-- Witness for C3: a failing HRESULT (`E_FAIL`) still yields a completed
construction. -/
theorem registration_failure_not_fatal_witness :
    ((viewerInit { cfgWindows with shellResult := (-2147467259 : Int) }
          (AppId.str (napariAppIdDefault "0.1.0")) demoEnv
          "napari" 2 none none true).2
        = (viewerInit cfgWindows (AppId.str (napariAppIdDefault "0.1.0"))
            demoEnv "napari" 2 none none true).2)
      ∧ (∃ v, (viewerInit { cfgWindows with shellResult := (-2147467259 : Int) }
          (AppId.str (napariAppIdDefault "0.1.0")) demoEnv
          "napari" 2 none none true).2 = Except.ok v)
      ∧ Effect.constructWindow true ∈
          (viewerInit { cfgWindows with shellResult := (-2147467259 : Int) }
            (AppId.str (napariAppIdDefault "0.1.0")) demoEnv
            "napari" 2 none none true).1 :=
  registration_failure_not_fatal cfgWindows
    (AppId.str (napariAppIdDefault "0.1.0")) demoEnv
    "napari" 2 none none true (-2147467259 : Int) rfl

/-- C4 counterexample: the claim asserts the skip conditions are evaluated
with the disabled-sentinel check first; the source evaluates the platform
check first.  On a non-Windows platform with the disabled sentinel, the
source's short-circuit evaluation reads only the platform check, while the
claimed order would read only the identity check. -/
theorem registration_condition_order_counterexample :
    condEvalTrace cfgLinux AppId.disabled = [CondCheck.platformCheck]
      ∧ specOrderCondTrace cfgLinux AppId.disabled = [CondCheck.identityCheck]
      ∧ ¬(condEvalTrace cfgLinux AppId.disabled
            = specOrderCondTrace cfgLinux AppId.disabled) := by
  refine ⟨by decide, by decide, by decide⟩

/-- C4 (amended): registration is skipped (zero OS shell calls) whenever
the platform is non-Windows, or the process is frozen, or the identity is
the disabled sentinel, with the conditions evaluated in the order platform,
then frozen, then identity (short-circuiting); otherwise the shell API is
invoked exactly once, with the identity string. -/
theorem registration_skip_conditions
    (cfg : Config) (appId : AppId) (env : WindowEnv V)
    (title : String) (ndisplay : Nat) (order : Option (List Int))
    (axisLabels : Option (List String)) (showFlag : Bool)
    (h : cfg.appInstance = true) :
    ((viewerInit cfg appId env title ndisplay order axisLabels showFlag).1.countP
        Effect.isShellCall
      = if (cfg.platformSystem = "Windows") && !cfg.sysFrozen && appId.truthy
        then 1 else 0)
      ∧ (∀ s r, Effect.setAppUserModelID s r ∈
            (viewerInit cfg appId env title ndisplay order axisLabels showFlag).1 →
          s = appId.identityString ∧ r = cfg.shellResult)
      ∧ (condEvalTrace cfg appId).head? = some CondCheck.platformCheck
      ∧ (¬cfg.platformSystem = "Windows" →
          CondCheck.identityCheck ∉ condEvalTrace cfg appId)
      ∧ (cfg.sysFrozen = true →
          CondCheck.identityCheck ∉ condEvalTrace cfg appId) := by
  have e := viewerInit_ok cfg appId env title ndisplay order axisLabels showFlag h
  refine ⟨?_, ?_, ?_, ?_, ?_⟩
  · rw [e]
    show _ = if registrationRuns cfg appId then 1 else 0
    by_cases hr : registrationRuns cfg appId = true <;>
      simp [hr, List.countP_append, List.countP_cons, Effect.isShellCall]
  · intro s r hmem
    rw [e] at hmem
    by_cases hr : registrationRuns cfg appId = true <;>
      simp [hr, Effect.setAppUserModelID.injEq] at hmem
    exact hmem
  · unfold condEvalTrace
    by_cases hp : cfg.platformSystem = "Windows" <;>
      by_cases hf : cfg.sysFrozen <;> simp [hp, hf]
  · intro hp
    simp [condEvalTrace, hp]
  · intro hf
    unfold condEvalTrace
    by_cases hp : cfg.platformSystem = "Windows" <;> simp [hp, hf]

/-- Witness for C4 (amended) on a Windows, non-frozen configuration with
the default identity: exactly one shell call, with that identity string. -/
theorem registration_skip_conditions_witness :
    ((viewerInit cfgWindows (AppId.str (napariAppIdDefault "0.1.0")) demoEnv
        "napari" 2 none none true).1.countP Effect.isShellCall
      = if (cfgWindows.platformSystem = "Windows") && !cfgWindows.sysFrozen
            && (AppId.str (napariAppIdDefault "0.1.0")).truthy
        then 1 else 0)
      ∧ (∀ s r, Effect.setAppUserModelID s r ∈
            (viewerInit cfgWindows (AppId.str (napariAppIdDefault "0.1.0"))
              demoEnv "napari" 2 none none true).1 →
          s = (AppId.str (napariAppIdDefault "0.1.0")).identityString
            ∧ r = cfgWindows.shellResult)
      ∧ (condEvalTrace cfgWindows
          (AppId.str (napariAppIdDefault "0.1.0"))).head?
          = some CondCheck.platformCheck
      ∧ (¬cfgWindows.platformSystem = "Windows" →
          CondCheck.identityCheck ∉ condEvalTrace cfgWindows
            (AppId.str (napariAppIdDefault "0.1.0")))
      ∧ (cfgWindows.sysFrozen = true →
          CondCheck.identityCheck ∉ condEvalTrace cfgWindows
            (AppId.str (napariAppIdDefault "0.1.0"))) :=
  registration_skip_conditions cfgWindows
    (AppId.str (napariAppIdDefault "0.1.0")) demoEnv
    "napari" 2 none none true rfl

/-- C5: on a successful construction the effects occur in order —
(conditional) platform identity registration, window icon, ViewerModel
construction with `(title, ndisplay, order, axis_labels)`, QtViewer
construction, Window construction — the guard having already passed; and
the window is shown during construction iff `show` is true. -/
theorem construction_step_order
    (cfg : Config) (appId : AppId) (env : WindowEnv V)
    (title : String) (ndisplay : Nat) (order : Option (List Int))
    (axisLabels : Option (List String)) (showFlag : Bool)
    (h : cfg.appInstance = true) :
    ((viewerInit cfg appId env title ndisplay order axisLabels showFlag).1
      = (if registrationRuns cfg appId
          then [Effect.setAppUserModelID appId.identityString cfg.shellResult]
          else []) ++
        [Effect.setWindowIcon (logopath cfg.moduleDir),
         Effect.constructViewerModel title ndisplay order axisLabels,
         Effect.constructQtViewer,
         Effect.constructWindow showFlag])
      ∧ (∃ v, (viewerInit cfg appId env title ndisplay order
            axisLabels showFlag).2 = Except.ok v
          ∧ v.title = title ∧ v.ndisplay = ndisplay ∧ v.order = order
          ∧ v.axisLabels = axisLabels
          ∧ v.window.visible = showFlag) := by
  rw [viewerInit_ok _ _ _ _ _ _ _ _ h]
  exact ⟨rfl, ⟨_, rfl, rfl, rfl, rfl, rfl, rfl⟩⟩

/-- Witness for C5 at a concrete construction with `show = false`. -/
theorem construction_step_order_witness :
    ((viewerInit cfgWindows (AppId.str (napariAppIdDefault "0.1.0")) demoEnv
        "napari" 2 none none false).1
      = (if registrationRuns cfgWindows (AppId.str (napariAppIdDefault "0.1.0"))
          then [Effect.setAppUserModelID
            (AppId.str (napariAppIdDefault "0.1.0")).identityString
            cfgWindows.shellResult]
          else []) ++
        [Effect.setWindowIcon (logopath cfgWindows.moduleDir),
         Effect.constructViewerModel "napari" 2 none none,
         Effect.constructQtViewer,
         Effect.constructWindow false])
      ∧ (∃ v, (viewerInit cfgWindows (AppId.str (napariAppIdDefault "0.1.0"))
            demoEnv "napari" 2 none none false).2 = Except.ok v
          ∧ v.title = "napari" ∧ v.ndisplay = 2 ∧ v.order = none
          ∧ v.axisLabels = none
          ∧ v.window.visible = false) :=
  construction_step_order cfgWindows (AppId.str (napariAppIdDefault "0.1.0"))
    demoEnv "napari" 2 none none false rfl

/-- Helper: every binding produced by `resolveNames` is what the caller
frame resolves its name to. -/
theorem resolveNames_sound (callerFrame : String → Option V)
    (names : List String) (p : String × V)
    (hp : p ∈ resolveNames callerFrame names) :
    callerFrame p.1 = some p.2 := by
  rcases List.mem_filterMap.mp hp with ⟨n, _, hn⟩
  rcases Option.map_eq_some.mp hn with ⟨v, hv, hpv⟩
  rcases hpv
  exact hv

/-- Helper: a name in the list that the caller frame resolves appears in
`resolveNames`. -/
theorem resolveNames_complete (callerFrame : String → Option V)
    (names : List String) (n : String) (v : V)
    (hn : n ∈ names) (hv : callerFrame n = some v) :
    (n, v) ∈ resolveNames callerFrame names :=
  List.mem_filterMap.mpr ⟨n, hn, by rw [hv]; rfl⟩

/-- Helper: `mergeAll` prepends the reversed bindings. -/
theorem mergeAll_eq (ns bs : List (String × V)) :
    mergeAll ns bs = bs.reverse ++ ns := by
  induction bs generalizing ns with
  | nil => rfl
  | cons p t ih =>
      show mergeAll (p :: ns) t = _
      rw [ih, List.reverse_cons, List.append_assoc]
      rfl

/-- Helper: looking up a key that occurs in `l`, all of whose bindings for
that key carry the same value, finds that value. -/
theorem lookup_append_of_mem (l ns : List (String × V)) (n : String) (v : V)
    (hmem : (n, v) ∈ l) (huniq : ∀ p ∈ l, p.1 = n → p.2 = v) :
    List.lookup n (l ++ ns) = some v := by
  induction l with
  | nil => cases hmem
  | cons p t ih =>
      rcases p with ⟨a, b⟩
      by_cases ha : n = a
      · have hb : b = v := huniq (a, b) (List.mem_cons_self _ _) ha.symm
        have hba : (n == a) = true := beq_iff_eq.mpr ha
        simp [List.lookup, hba, hb]
      · have hba : (n == a) = false := by
          simpa using ha
        have hmem' : (n, v) ∈ t := by
          rcases List.mem_cons.mp hmem with heq | ht
          · exact absurd (congrArg Prod.fst heq) ha
          · exact ht
        have huniq' : ∀ p ∈ t, p.1 = n → p.2 = v := fun p hp =>
          huniq p (List.mem_cons_of_mem _ hp)
        simpa [List.lookup, hba] using ih hmem' huniq'

/-- Helper: merging the bindings resolved from a name list into a
namespace makes a resolvable listed name look up to its resolved value. -/
theorem lookup_merge_resolved (ns : List (String × V))
    (f : String → Option V) (l : List String) (n : String) (v : V)
    (hn : n ∈ l) (hv : f n = some v) :
    List.lookup n (mergeAll ns (resolveNames f l)) = some v := by
  rw [mergeAll_eq]
  apply lookup_append_of_mem
  · exact List.mem_reverse.mpr (resolveNames_complete f l n v hn hv)
  · intro p hp hpn
    have hf := resolveNames_sound f l p (List.mem_reverse.mp hp)
    rw [hpn] at hf
    exact (Option.some_inj.mp (hv.symm.trans hf)).symm

/-- C2: when `variables` is given as name(s) only — a space-delimited
string or a list of names — `update_console` on a viewer with an attached
console resolves each name from the caller's calling context and merges the
resolved binding into the console's namespace: any name among them that the
caller frame resolves to `v` afterwards looks up to `v`. -/
theorem update_console_resolves_names
    (s : Viewer V) (c : Console V) (callerFrame : String → Option V)
    (vars : Variables V) (names : List String) (n : String) (v : V)
    (hc : s.window.qt_viewer.console = some c)
    (hvars : namesOf vars = some names)
    (hn : n ∈ names) (hv : callerFrame n = some v) :
    ∃ c2, (Viewer.update_console s callerFrame vars).window.qt_viewer.console
        = some c2
      ∧ List.lookup n c2.namespaceMap = some v := by
  refine ⟨c.push callerFrame vars, ?_, ?_⟩
  · simp only [Viewer.update_console, hc]
  · cases vars with
    | mapping m => exact absurd hvars (by simp [namesOf])
    | nameStr s0 =>
        have hnames : splitNames s0 = names := by simpa [namesOf] using hvars
        exact lookup_merge_resolved c.namespaceMap callerFrame (splitNames s0)
          n v (by rw [hnames]; exact hn) hv
    | nameList l =>
        have hnames : l = names := by simpa [namesOf] using hvars
        exact lookup_merge_resolved c.namespaceMap callerFrame l
          n v (by rw [hnames]; exact hn) hv

/-- Witness for C2: with a console attached and caller locals
`a = 3, b = 4`, pushing the space-delimited name string makes each name
look up to its local value (instantiated at the name string form). -/
theorem update_console_resolves_names_witness :
    ∃ c2, (Viewer.update_console
        { title := "napari", ndisplay := 2, order := none, axisLabels := none,
          window :=
            { qt_viewer :=
                { console := some ⟨[]⟩, poolId := 5, poolQueue := [],
                  canvas := demoCapture },
              chrome := demoCapture, visible := true } }
        (fun m => if m = "a" then some 3 else if m = "b" then some 4 else none)
        (Variables.nameStr "a b")).window.qt_viewer.console = some c2
      ∧ List.lookup "a" c2.namespaceMap = some 3 :=
  update_console_resolves_names
    { title := "napari", ndisplay := 2, order := none, axisLabels := none,
      window :=
        { qt_viewer :=
            { console := some ⟨[]⟩, poolId := 5, poolQueue := [],
              canvas := demoCapture },
          chrome := demoCapture, visible := true } }
    ⟨[]⟩
    (fun m => if m = "a" then some 3 else if m = "b" then some 4 else none)
    (Variables.nameStr "a b") ["a", "b"] "a" 3
    rfl (by decide) (by decide) (by decide)

/-- Helper: the rendered buffer has one row per captured row. -/
theorem renderCapture_length (c : Capture) :
    (renderCapture c).length = c.h := by
  simp [renderCapture]

/-- Helper: every row has `w` pixels, every pixel 4 channel values, each
an 8-bit value. -/
theorem renderCapture_shape (c : Capture) :
    ∀ row ∈ renderCapture c, row.length = c.w ∧
      ∀ px ∈ row, px.length = 4 ∧ ∀ chv ∈ px, chv < 256 := by
  intro row hrow
  rcases List.mem_map.mp hrow with ⟨r, _, hr⟩
  subst hr
  refine ⟨by simp, ?_⟩
  intro px hpx
  rcases List.mem_map.mp hpx with ⟨col, _, hcol⟩
  subst hcol
  refine ⟨by simp, ?_⟩
  intro chv hchv
  rcases List.mem_map.mp hchv with ⟨k, _, hk⟩
  subst hk
  exact Nat.mod_lt _ (by norm_num)

/-- Helper: entry `[0][0]` of the rendered buffer is the pixel of the
upper-left corner of the captured region. -/
theorem renderCapture_upper_left (c : Capture) (hh : 0 < c.h) (hw : 0 < c.w) :
    ((renderCapture c)[0]?).bind (fun row => row[0]?)
      = some ((List.range 4).map (fun ch => c.pix 0 0 ch % 256)) := by
  simp [renderCapture, List.getElem?_map, List.getElem?_range, hh, hw]

/-- C6: `screenshot` captures the whole window chrome when `with_viewer`
is true and only the canvas otherwise, and the returned buffer is a dense
`(height, width, 4)` array of 8-bit channel values whose `[0][0]` entry is
the upper-left corner of the captured region. -/
theorem screenshot_scope_and_shape (s : Viewer V) :
    Viewer.screenshot s true = renderCapture s.window.chrome
    ∧ Viewer.screenshot s false = renderCapture s.window.qt_viewer.canvas
    ∧ ∀ wv : Bool,
        (Viewer.screenshot s wv).length
            = (if wv then s.window.chrome else s.window.qt_viewer.canvas).h
        ∧ (∀ row ∈ Viewer.screenshot s wv,
            row.length
                = (if wv then s.window.chrome else s.window.qt_viewer.canvas).w
            ∧ ∀ px ∈ row, px.length = 4 ∧ ∀ chv ∈ px, chv < 256)
        ∧ (0 < (if wv then s.window.chrome else s.window.qt_viewer.canvas).h →
           0 < (if wv then s.window.chrome else s.window.qt_viewer.canvas).w →
            ((Viewer.screenshot s wv)[0]?).bind (fun row => row[0]?)
              = some ((List.range 4).map (fun ch =>
                  (if wv then s.window.chrome
                   else s.window.qt_viewer.canvas).pix 0 0 ch % 256))) := by
  refine ⟨rfl, rfl, ?_⟩
  intro wv
  have hs : Viewer.screenshot s wv
      = renderCapture (if wv then s.window.chrome
                       else s.window.qt_viewer.canvas) := by
    cases wv <;> rfl
  rw [hs]
  exact ⟨renderCapture_length _, renderCapture_shape _,
    fun hh hw => renderCapture_upper_left _ hh hw⟩

/-- Witness for C6 at a concrete viewer whose captures are nonempty. -/
theorem screenshot_scope_and_shape_witness :
    Viewer.screenshot demoViewerNone true = renderCapture demoViewerNone.window.chrome
    ∧ Viewer.screenshot demoViewerNone false
        = renderCapture demoViewerNone.window.qt_viewer.canvas
    ∧ ∀ wv : Bool,
        (Viewer.screenshot demoViewerNone wv).length
            = (if wv then demoViewerNone.window.chrome
               else demoViewerNone.window.qt_viewer.canvas).h
        ∧ (∀ row ∈ Viewer.screenshot demoViewerNone wv,
            row.length
                = (if wv then demoViewerNone.window.chrome
                   else demoViewerNone.window.qt_viewer.canvas).w
            ∧ ∀ px ∈ row, px.length = 4 ∧ ∀ chv ∈ px, chv < 256)
        ∧ (0 < (if wv then demoViewerNone.window.chrome
                else demoViewerNone.window.qt_viewer.canvas).h →
           0 < (if wv then demoViewerNone.window.chrome
                else demoViewerNone.window.qt_viewer.canvas).w →
            ((Viewer.screenshot demoViewerNone wv)[0]?).bind (fun row => row[0]?)
              = some ((List.range 4).map (fun ch =>
                  (if wv then demoViewerNone.window.chrome
                   else demoViewerNone.window.qt_viewer.canvas).pix 0 0 ch % 256))) :=
  screenshot_scope_and_shape demoViewerNone

/-- C7: `update_console` with no attached console returns the viewer
unchanged (silent no-op); with an attached console it merges the variables
into the console's namespace via its `push`. -/
theorem update_console_noop_or_push (s : Viewer V)
    (callerFrame : String → Option V) (vars : Variables V) :
    (s.window.qt_viewer.console = none →
      Viewer.update_console s callerFrame vars = s)
    ∧ ∀ c, s.window.qt_viewer.console = some c →
        (Viewer.update_console s callerFrame vars).window.qt_viewer.console
          = some (c.push callerFrame vars) := by
  constructor
  · intro hc
    simp only [Viewer.update_console, hc]
  · intro c hc
    simp only [Viewer.update_console, hc]

/-- Witness for C7: a concrete consoleless viewer is returned unchanged,
and a concrete viewer with a console gets the pushed mapping. -/
theorem update_console_noop_or_push_witness :
    (Viewer.update_console demoViewerNone (fun _ => none)
        (Variables.mapping [("x", 5)]) = demoViewerNone)
    ∧ (Viewer.update_console demoViewerConsole (fun _ => none)
        (Variables.mapping [("x", 5)])).window.qt_viewer.console
        = some (Console.push ⟨[]⟩ (fun _ => none)
            (Variables.mapping [("x", 5)])) :=
  ⟨(update_console_noop_or_push demoViewerNone (fun _ => none)
      (Variables.mapping [("x", 5)])).1 rfl,
   (update_console_noop_or_push demoViewerConsole (fun _ => none)
      (Variables.mapping [("x", 5)])).2 ⟨[]⟩ rfl⟩

/-- C9: `update_console` modifies no field of the viewer or its window:
title, display fields, visibility, captures and the pool are untouched, and
the console is exactly the old console with the unchanged `variables`
argument pushed (absent stays absent). -/
theorem update_console_frame (s : Viewer V)
    (callerFrame : String → Option V) (vars : Variables V) :
    (Viewer.update_console s callerFrame vars).title = s.title
    ∧ (Viewer.update_console s callerFrame vars).ndisplay = s.ndisplay
    ∧ (Viewer.update_console s callerFrame vars).order = s.order
    ∧ (Viewer.update_console s callerFrame vars).axisLabels = s.axisLabels
    ∧ (Viewer.update_console s callerFrame vars).window.visible
        = s.window.visible
    ∧ (Viewer.update_console s callerFrame vars).window.chrome
        = s.window.chrome
    ∧ (Viewer.update_console s callerFrame vars).window.qt_viewer.poolId
        = s.window.qt_viewer.poolId
    ∧ (Viewer.update_console s callerFrame vars).window.qt_viewer.poolQueue
        = s.window.qt_viewer.poolQueue
    ∧ (Viewer.update_console s callerFrame vars).window.qt_viewer.canvas
        = s.window.qt_viewer.canvas
    ∧ (Viewer.update_console s callerFrame vars).window.qt_viewer.console
        = Option.map (fun c => c.push callerFrame vars)
            s.window.qt_viewer.console := by
  cases hc : s.window.qt_viewer.console <;>
    simp [Viewer.update_console, hc]

/-- C8: `update` wraps the callable and its arguments into a `QtUpdateUI`
task record, enqueues it on the window's worker pool immediately, and
returns the pool itself (not a per-task future). -/
theorem update_enqueues_and_returns_pool (s : Viewer V) (func : V)
    (args : List V) (kwargs : List (String × V)) :
    ((Viewer.update s func args kwargs).1.window.qt_viewer.poolQueue
        = s.window.qt_viewer.poolQueue
            ++ [{ func := func, args := args, kwargs := kwargs }])
    ∧ (Viewer.update s func args kwargs).2 = s.window.qt_viewer.poolId
    ∧ (Viewer.update s func args kwargs).1.window.qt_viewer.poolId
        = s.window.qt_viewer.poolId :=
  ⟨rfl, rfl, rfl⟩

/-- C10: two successive `update` calls on a viewer return the identical
pool handle, regardless of the submitted callables and arguments. -/
theorem update_returns_same_pool (s : Viewer V) (f1 f2 : V)
    (a1 a2 : List V) (k1 k2 : List (String × V)) :
    (Viewer.update ((Viewer.update s f1 a1 k1).1) f2 a2 k2).2
      = (Viewer.update s f1 a1 k1).2 := rfl

end Napari
